import Mathlib

/-!
Verification of the polymarket-agent core pipeline.

This file is a shallow embedding, in Lean 4, of the algorithmic core of the
repository: the strategy layer (`src/strategy/signal.py`,
`src/strategy/divergence_detector.py`, `src/strategy/thresholds.py`), the
council layer (`src/council/sentiment_agent.py`,
`src/council/confidence_grader.py`, `src/council/trade_judge.py`,
`src/council/orchestrator.py`, `src/shared/ollama_client.py`), the risk gate
(`src/execution/position_tracker.py`) and the feed aggregator
(`src/feeds/feed_aggregator.py`).

Modelling conventions:
- Python floats are modelled as rationals (`ℚ`); float arithmetic is exact in
  the embedding.
- Python strings are `String`; the Python methods `str.strip()`, `str.upper()`
  and slicing `s[:n]` are embedded as the structural functions `strTrim`,
  `strUpper` and `strTake` below (structural so that the kernel can evaluate
  them on concrete inputs).
- `re.Pattern.findall` belongs to the Python standard library (external to the
  repository), so each stage parser is parameterised by the list-of-matches
  functions it applies to a channel of text; likewise the `re.sub` removing
  delimited think-blocks is an abstract `stripThink` parameter.
- The inference backend (`OllamaClient.chat_async`) is external; a backend
  interaction is modelled as `Except String ChatResult`: `Except.error e`
  is a raised transport/backend exception with message `e`, `Except.ok`
  carries the response/thinking channels of a successful call.
- `time.monotonic` latencies and timestamps are irrelevant to the verified
  claims; latency values are threaded as parameters and timestamp fields are
  omitted from the record types.
-/

set_option autoImplicit false

namespace PolymarketAgent

/-! ### String helpers (structural embeddings of Python string methods) -/

/-- Embeds Python `str.strip()` (drop leading and trailing whitespace). -/
def strTrim (s : String) : String :=
  String.mk (((s.data.dropWhile Char.isWhitespace).reverse.dropWhile Char.isWhitespace).reverse)

/-- Embeds Python `str.upper()` for the ASCII label strings the parsers see. -/
def strUpper (s : String) : String := String.mk (s.data.map Char.toUpper)

/-- Embeds Python slicing `s[:n]` (first `n` characters). -/
def strTake (s : String) (n : ℕ) : String := String.mk (s.data.take n)

/-! ### Numeric helpers -/

/-- Rounding to the nearest integer with ties to the even integer: the rounding
mode of Python 3 `round`. -/
def roundHalfEven (q : ℚ) : ℤ :=
  if q - Int.floor q < 1/2 then Int.floor q
  else if 1/2 < q - Int.floor q then Int.floor q + 1
  else if Int.floor q % 2 = 0 then Int.floor q else Int.floor q + 1

/-- Embeds Python `round(q, 4)` (used by `composite_score` in
`src/strategy/signal.py`). -/
def round4 (q : ℚ) : ℚ := (roundHalfEven (q * 10000) : ℚ) / 10000

/-- Value of a list of ASCII digit characters read in base 10. -/
def digitsVal (cs : List Char) : ℕ := cs.foldl (fun acc c => 10 * acc + (c.toNat - 48)) 0

/-- Embeds Python `float(s)` restricted to the strings the regex character
class `[\d.]+` can produce (digits and dots): such a string parses exactly
when it has at least one digit and at most one dot.  `none` models the
`ValueError` branch of `TradeJudge._parse` and `ConfidenceGrader._parse`. -/
def parse_number (s : String) : Option ℚ :=
  let cs := s.data
  if cs.isEmpty then none
  else if cs.all fun c => c.isDigit || c == '.' then
    if (cs.countP fun c => c == '.') ≤ 1 then
      if cs.any Char.isDigit then
        let ip := cs.takeWhile fun c => c != '.'
        let fp := (cs.dropWhile fun c => c != '.').drop 1
        some ((digitsVal ip : ℚ) + (digitsVal fp : ℚ) / (10 : ℚ) ^ fp.length)
      else none
    else none
  else none

/-- Zero-pad the decimal digits of `n` on the left to `k` digits. -/
def natPad (n k : ℕ) : String :=
  let s := toString n
  String.mk (List.replicate (k - s.length) '0') ++ s

/-- Embeds the Python format spec `{q:.2f}` for a non-negative rational
(two digits after the decimal point, rounding half to even). -/
def fmt2 (q : ℚ) : String :=
  let n := (roundHalfEven (q * 100)).toNat
  toString (n / 100) ++ "." ++ natPad (n % 100) 2

/-- Number of decimal digits needed to write `q` exactly (searched up to 17,
the precision at which Python float repr is exact). -/
def fracDigits (q : ℚ) : ℕ :=
  ((List.range 18).find? fun k => (q * (10 : ℚ) ^ k).den == 1).getD 17

/-- Embeds the Python format spec `{q}` (that is, `str(q)`) for a non-negative
float whose value is a short terminating decimal, such as the configured
`min_confidence` threshold `0.6`: the shortest decimal form, with `.0`
appended to a whole number. -/
def fmtFloat (q : ℚ) : String :=
  let k := fracDigits q
  if k = 0 then toString q.num ++ ".0"
  else
    let m := (q * (10 : ℚ) ^ k).num.toNat
    toString (m / 10 ^ k) ++ "." ++ natPad (m % 10 ^ k) k

/-! ### Strategy thresholds (`src/strategy/thresholds.py`) -/

/-- Minimum edge (%) between implied fair odds and market odds to trigger a signal. -/
def MIN_EDGE_PCT : ℚ := 2.0

/-- Minimum composite signal score (0-1) to pass to the council. -/
def MIN_SIGNAL_SCORE : ℚ := 0.6

/-- Minimum price momentum (%) to consider meaningful. -/
def MIN_MOMENTUM_PCT : ℚ := 0.3

/-- Weight factor of the edge sub-score. -/
def WEIGHT_EDGE : ℚ := 0.5

/-- Weight factor of the momentum sub-score. -/
def WEIGHT_MOMENTUM : ℚ := 0.3

/-- Weight factor of the volume sub-score. -/
def WEIGHT_VOLUME : ℚ := 0.2

/-- Volume spike threshold (relative to 24h average) for the volume factor. -/
def VOLUME_SPIKE_THRESHOLD : ℚ := 1.5

/-! ### Signal scoring (`src/strategy/signal.py`) -/

/-- Embeds `score_edge`: edge component in [0,1], saturating at 10%. -/
def score_edge (edge_pct : ℚ) : ℚ := min (|edge_pct| / 10) 1

/-- Embeds `score_momentum`: momentum component in [0,1], saturating at 5%. -/
def score_momentum (momentum_pct : ℚ) : ℚ := min (|momentum_pct| / 5) 1

/-- Embeds `score_volume`: volume spike relative to average, in [0,1]. -/
def score_volume (volume_24h avg_volume : ℚ) : ℚ :=
  if avg_volume ≤ 0 then 0
  else
    let ratio := volume_24h / avg_volume
    if ratio < VOLUME_SPIKE_THRESHOLD then 0
    else min ((ratio - VOLUME_SPIKE_THRESHOLD) / 3.5) 1

/-- Embeds `composite_score`: weighted composite signal score.  The Python
signature defaults `volume_24h` and `avg_volume` to `0.0`; callers that omit
them (as `DivergenceDetector._evaluate` omits `avg_volume`) pass `0` here. -/
def composite_score (edge_pct momentum_pct volume_24h avg_volume : ℚ) : ℚ :=
  round4 (score_edge edge_pct * WEIGHT_EDGE
    + score_momentum momentum_pct * WEIGHT_MOMENTUM
    + score_volume volume_24h avg_volume * WEIGHT_VOLUME)

/-! ### Data model (`src/shared/schemas.py`) -/

/-- Embeds `PriceTick` (timestamp omitted). -/
structure PriceTick where
  symbol : String
  price : ℚ
  volume_24h : ℚ
  price_change_pct : ℚ
deriving DecidableEq

/-- Embeds `OddsSnapshot` (timestamp omitted). -/
structure OddsSnapshot where
  condition_id : String
  token_id : String
  symbol : String
  question : String
  outcome : String
  midpoint : ℚ
  spread : ℚ
deriving DecidableEq

/-- Embeds `DivergenceSignal` (timestamp omitted). -/
structure DivergenceSignal where
  symbol : String
  price : ℚ
  price_momentum_pct : ℚ
  odds_midpoint : ℚ
  implied_fair_odds : ℚ
  edge_pct : ℚ
  signal_score : ℚ
  direction : String
  condition_id : String
  token_id : String
deriving DecidableEq

/-- Embeds the `Sentiment` enum. -/
inductive Sentiment
  | BULLISH
  | BEARISH
  | NEUTRAL
deriving DecidableEq

/-- Embeds the `TradeAction` enum. -/
inductive TradeAction
  | TRADE
  | SKIP
deriving DecidableEq

/-- Embeds `SentimentResult`. -/
structure SentimentResult where
  sentiment : Sentiment
  reasoning : String
  model : String
  latency_ms : ℚ
deriving DecidableEq

/-- Embeds `ConfidenceGrade`. -/
structure ConfidenceGrade where
  confidence : ℚ
  reasoning : String
  model : String
  latency_ms : ℚ
deriving DecidableEq

/-- Embeds `TradeVerdict`. -/
structure TradeVerdict where
  action : TradeAction
  size_usd : ℚ
  reasoning : String
  model : String
  latency_ms : ℚ
deriving DecidableEq

/-- Embeds `CouncilDecision` (timestamp omitted; `total_latency_ms` is wall
clock in the source and is fixed to `0` in the embedding). -/
structure CouncilDecision where
  signal : DivergenceSignal
  sentiment : SentimentResult
  confidence : ConfidenceGrade
  verdict : TradeVerdict
  total_latency_ms : ℚ
deriving DecidableEq

/-- Embeds the Python `Sentiment(raw)` enum constructor: `some` on the three
member strings, `none` models the `ValueError` branch. -/
def sentimentOfString (s : String) : Option Sentiment :=
  if s = "BULLISH" then some Sentiment.BULLISH
  else if s = "BEARISH" then some Sentiment.BEARISH
  else if s = "NEUTRAL" then some Sentiment.NEUTRAL
  else none

/-- Embeds the Python `TradeAction(raw)` enum constructor. -/
def tradeActionOfString (s : String) : Option TradeAction :=
  if s = "TRADE" then some TradeAction.TRADE
  else if s = "SKIP" then some TradeAction.SKIP
  else none

/-! ### Inference backend interface (`src/shared/ollama_client.py`) -/

/-- The two text channels of a successful `OllamaClient.chat` result
(`response` is the clean channel, `thinking` the reasoning channel). -/
structure ChatResult where
  response : String
  thinking : String
deriving DecidableEq

/-- Embeds `_merge_fields`: merge the response and thinking channels into one
parseable text, with the thinking wrapped in think-tags and placed before the
clean response when both are present. -/
def merge_fields (response thinking : String) : String :=
  let r := strTrim response
  let t := strTrim thinking
  if t = "" then r
  else if r = "" then t
  else "<think>" ++ t ++ "</think>\n" ++ r

/-! ### Shared extraction discipline (`_parse` of all three council stages)

Each stage computes `PATTERN.findall(response) if response else []` and, when
that list is empty, falls back to `PATTERN.findall(merged)`; `effectiveMatches`
embeds exactly this two-step channel preference, with the regex `findall`
abstracted as a function argument. -/

/-- The match list a stage parser works from: matches found in the clean
response channel if there are any, otherwise the matches in the merged text. -/
def effectiveMatches (findall : String → List String) (response merged : String) :
    List String :=
  let ms := if response = "" then [] else findall response
  if ms = [] then findall merged else ms

/-! ### Sentiment agent (`src/council/sentiment_agent.py`) -/

/-- Embeds `SentimentAgent._parse`.  `findSentiment` and `findReasoning` stand
for `SENTIMENT_PATTERN.findall` and `REASONING_PATTERN.findall`; `stripThink`
stands for the `re.sub` that removes think-blocks from the merged text. -/
def SentimentAgent.parse (model : String)
    (findSentiment findReasoning : String → List String) (stripThink : String → String)
    (response thinking merged : String) (latency_ms : ℚ) : SentimentResult :=
  let sentiment_matches := effectiveMatches findSentiment response merged
  let reasoning_matches := effectiveMatches findReasoning response merged
  let sentiment := match sentiment_matches.getLast? with
    | some raw => (sentimentOfString (strUpper raw)).getD Sentiment.NEUTRAL
    | none => Sentiment.NEUTRAL
  let reasoning := match reasoning_matches.getLast? with
    | some r => strTake (strTrim r) 500
    | none => strTake (strTrim (stripThink merged)) 200
  { sentiment := sentiment, reasoning := reasoning, model := model, latency_ms := latency_ms }

/-- Embeds `SentimentAgent.analyze`: one backend call, its two channels
stripped and merged, parsed by `SentimentAgent.parse`; a raised backend
exception is caught and converted to the NEUTRAL fail-safe with an
error-annotated rationale. -/
def SentimentAgent.analyze (model : String)
    (findSentiment findReasoning : String → List String) (stripThink : String → String)
    (backend : Except String ChatResult) (latency_ms : ℚ) : SentimentResult :=
  match backend with
  | Except.error e =>
      { sentiment := Sentiment.NEUTRAL, reasoning := "Error: " ++ e,
        model := model, latency_ms := latency_ms }
  | Except.ok result =>
      SentimentAgent.parse model findSentiment findReasoning stripThink
        (strTrim result.response) (strTrim result.thinking)
        (merge_fields result.response result.thinking) latency_ms

/-! ### Confidence grader (`src/council/confidence_grader.py`) -/

/-- Embeds `ConfidenceGrader._parse`: the last effective `CONFIDENCE:` match is
parsed as a float and clamped to [0,1]; no match, or a `ValueError`, yields the
fail-safe confidence `0`. -/
def ConfidenceGrader.parse (model : String)
    (findConfidence findReasoning : String → List String) (stripThink : String → String)
    (response thinking merged : String) (latency_ms : ℚ) : ConfidenceGrade :=
  let conf_matches := effectiveMatches findConfidence response merged
  let reasoning_matches := effectiveMatches findReasoning response merged
  let confidence := match conf_matches.getLast? with
    | some raw =>
        match parse_number raw with
        | some x => max 0 (min 1 x)
        | none => 0
    | none => 0
  let reasoning := match reasoning_matches.getLast? with
    | some r => strTake (strTrim r) 500
    | none => strTake (strTrim (stripThink merged)) 200
  { confidence := confidence, reasoning := reasoning, model := model, latency_ms := latency_ms }

/-- Embeds `ConfidenceGrader.grade`: backend call plus parse, with a raised
backend exception converted to the confidence-0 fail-safe. -/
def ConfidenceGrader.grade (model : String)
    (findConfidence findReasoning : String → List String) (stripThink : String → String)
    (backend : Except String ChatResult) (latency_ms : ℚ) : ConfidenceGrade :=
  match backend with
  | Except.error e =>
      { confidence := 0, reasoning := "Error: " ++ e,
        model := model, latency_ms := latency_ms }
  | Except.ok result =>
      ConfidenceGrader.parse model findConfidence findReasoning stripThink
        (strTrim result.response) (strTrim result.thinking)
        (merge_fields result.response result.thinking) latency_ms

/-! ### Trade judge (`src/council/trade_judge.py`) -/

/-- Embeds lines 107-115 of `TradeJudge._parse`: action defaults to SKIP and
is set from the last decision match through the `TradeAction` constructor,
whose `ValueError` branch restores SKIP. -/
def TradeJudge.parseDecision (decision_matches : List String) : TradeAction :=
  match decision_matches.getLast? with
  | some raw => (tradeActionOfString (strUpper raw)).getD TradeAction.SKIP
  | none => TradeAction.SKIP

/-- Embeds lines 108 and 117-124 of `TradeJudge._parse`: size defaults to 0;
when the action is TRADE and a size match exists, the last one is parsed and
clamped to `[5, max_position_size]`, with a `ValueError` setting size 0 and
forcing SKIP.  Returns the (action, size) pair after this step. -/
def TradeJudge.applySize (max_position_size : ℚ) (action : TradeAction)
    (size_matches : List String) : TradeAction × ℚ :=
  match action, size_matches.getLast? with
  | TradeAction.TRADE, some raw =>
      match parse_number raw with
      | some x => (TradeAction.TRADE, max 5 (min x max_position_size))
      | none => (TradeAction.SKIP, 0)
  | a, _ => (a, 0)

/-- Embeds `TradeJudge._parse`: decision extraction, size clamping, the final
guard forcing a TRADE with non-positive stored size to SKIP, and reasoning
extraction. -/
def TradeJudge.parse (model : String) (max_position_size : ℚ)
    (findDecision findSize findReasoning : String → List String)
    (stripThink : String → String)
    (response thinking merged : String) (latency_ms : ℚ) : TradeVerdict :=
  let decision_matches := effectiveMatches findDecision response merged
  let size_matches := effectiveMatches findSize response merged
  let reasoning_matches := effectiveMatches findReasoning response merged
  let action := TradeJudge.parseDecision decision_matches
  let sized := TradeJudge.applySize max_position_size action size_matches
  let action2 := if sized.1 = TradeAction.TRADE ∧ sized.2 ≤ 0 then TradeAction.SKIP else sized.1
  let reasoning := match reasoning_matches.getLast? with
    | some r => strTake (strTrim r) 500
    | none => strTake (strTrim (stripThink merged)) 200
  { action := action2, size_usd := sized.2, reasoning := reasoning,
    model := model, latency_ms := latency_ms }

/-- Embeds `TradeJudge.judge`: backend call plus parse, with a raised backend
exception converted to the SKIP/size-0 fail-safe. -/
def TradeJudge.judge (model : String) (max_position_size : ℚ)
    (findDecision findSize findReasoning : String → List String)
    (stripThink : String → String)
    (backend : Except String ChatResult) (latency_ms : ℚ) : TradeVerdict :=
  match backend with
  | Except.error e =>
      { action := TradeAction.SKIP, size_usd := 0, reasoning := "Error: " ++ e,
        model := model, latency_ms := latency_ms }
  | Except.ok result =>
      TradeJudge.parse model max_position_size findDecision findSize findReasoning stripThink
        (strTrim result.response) (strTrim result.thinking)
        (merge_fields result.response result.thinking) latency_ms

/-! ### Orchestrator (`src/council/orchestrator.py`) -/

/-- Embeds the `TradeVerdict` synthesised on the short-circuit path of
`CouncilOrchestrator.evaluate`: action SKIP, size 0, rationale recording the
confidence value (formatted `.2f`) and the threshold. -/
def shortCircuitVerdict (confidence min_confidence : ℚ) : TradeVerdict :=
  { action := TradeAction.SKIP
    size_usd := 0
    reasoning := "Short-circuit: confidence " ++ fmt2 confidence ++ " < " ++ fmtFloat min_confidence
    model := "short-circuit"
    latency_ms := 0 }

/-- Embeds `CouncilOrchestrator.evaluate`.  Each council stage issues exactly
one inference call, so the number of inference calls performed equals the
number of stages run; `evaluate` returns that count alongside the decision.
The sentiment and confidence stage outcomes are always consumed; the judge
stage outcome `judgeVerdict` is consumed only on the non-short-circuit path. -/
def CouncilOrchestrator.evaluate (min_confidence : ℚ) (signal : DivergenceSignal)
    (sentiment : SentimentResult) (confidence : ConfidenceGrade)
    (judgeVerdict : TradeVerdict) : CouncilDecision × ℕ :=
  if confidence.confidence < min_confidence then
    ({ signal := signal, sentiment := sentiment, confidence := confidence,
       verdict := shortCircuitVerdict confidence.confidence min_confidence,
       total_latency_ms := 0 }, 2)
  else
    ({ signal := signal, sentiment := sentiment, confidence := confidence,
       verdict := judgeVerdict, total_latency_ms := 0 }, 3)

/-! ### Divergence detector (`src/strategy/divergence_detector.py`) -/

/-- Embeds `compute_implied_odds`: adjust the market odds by 3% per 1% of
price momentum, clamped to [0.01, 0.99]. -/
def compute_implied_odds (current_odds momentum_pct : ℚ) : ℚ :=
  let adjustment := momentum_pct * 0.03
  let implied := current_odds + adjustment
  max 0.01 (min 0.99 implied)

/-- Embeds `DivergenceDetector._evaluate`.  `momentum` is the value of
`binance_feed.get_momentum(tick.symbol)` (the Binance feed is an external
collaborator).  The call to `composite_score` omits `avg_volume`, so the
Python default `0.0` is passed explicitly. -/
def DivergenceDetector.evaluate (min_edge_pct min_signal_score : ℚ) (momentum : ℚ)
    (tick : PriceTick) (odds : OddsSnapshot) : Option DivergenceSignal :=
  if |momentum| < MIN_MOMENTUM_PCT then none
  else
    let implied := compute_implied_odds odds.midpoint momentum
    let edge_pct := (implied - odds.midpoint) * 100
    if |edge_pct| < min_edge_pct then none
    else
      let score := composite_score edge_pct momentum tick.volume_24h 0
      if score < min_signal_score then none
      else some
        { symbol := tick.symbol
          price := tick.price
          price_momentum_pct := momentum
          odds_midpoint := odds.midpoint
          implied_fair_odds := implied
          edge_pct := edge_pct
          signal_score := score
          direction := if momentum > 0 then "UP" else "DOWN"
          condition_id := odds.condition_id
          token_id := odds.token_id }

/-! ### Risk gate (`src/execution/position_tracker.py`) -/

/-- The reason component of a `PositionTracker.can_trade` result.  The Python
code returns a formatted message string per failing check; the embedding
returns a tagged value carrying the same data (which check failed and the
numbers interpolated into its message). -/
inductive RiskBlockReason
  | maxOpenPositionsReached (max_open_positions : ℕ)
  | sizeExceedsMax (size_usd max_position_size : ℚ)
  | exposureExceedsMax (total_with_new max_capital : ℚ)
  | ok
deriving DecidableEq

/-- Embeds `PositionTracker.can_trade`.  `open_trades` is the list of
`size_usd` values of the currently open trades returned by
`db.get_open_trades()` (persistence is an external collaborator). -/
def PositionTracker.can_trade (max_capital max_position_size : ℚ) (max_open_positions : ℕ)
    (open_trades : List ℚ) (size_usd : ℚ) : Bool × RiskBlockReason :=
  if open_trades.length ≥ max_open_positions then
    (false, RiskBlockReason.maxOpenPositionsReached max_open_positions)
  else if size_usd > max_position_size then
    (false, RiskBlockReason.sizeExceedsMax size_usd max_position_size)
  else
    let total_exposure := open_trades.sum
    if total_exposure + size_usd > max_capital then
      (false, RiskBlockReason.exposureExceedsMax (total_exposure + size_usd) max_capital)
    else (true, RiskBlockReason.ok)

/-- Embeds `PositionTracker.get_available_capital`. -/
def PositionTracker.get_available_capital (max_capital : ℚ) (open_trades : List ℚ) : ℚ :=
  max 0 (max_capital - open_trades.sum)

/-! ### Feed aggregator (`src/feeds/feed_aggregator.py`) -/

/-- Embeds `DiscoveredMarket` (`src/feeds/gamma_discovery.py`). -/
structure DiscoveredMarket where
  condition_id : String
  token_id : String
  question : String
  outcome : String
  symbol : String
deriving DecidableEq

/-- Embeds `PairedData`. -/
structure PairedData where
  tick : PriceTick
  odds : OddsSnapshot
deriving DecidableEq

/-- The mutable state of a `FeedAggregator`: the `_latest_odds` cache, a map
from token id to the most recent odds snapshot.  The symbol-to-markets index
is fixed at construction and passed separately as a read-only argument. -/
structure AggregatorState where
  latest_odds : String → Option OddsSnapshot

/-- Embeds one iteration of `FeedAggregator._consume_odds`: unconditional
last-write-wins overwrite of the cache entry for the snapshot's token id. -/
def FeedAggregator.consume_odds (st : AggregatorState) (odds : OddsSnapshot) :
    AggregatorState :=
  { latest_odds := fun k => if k = odds.token_id then some odds else st.latest_odds k }

/-- Embeds one iteration of `FeedAggregator._consume_prices`: for each market
registered for the symbol of the tick, emit a `PairedData` when the cache
holds odds for that market, in registration order; the state is returned
unchanged (a tick that pairs with nothing is dropped, not queued). -/
def FeedAggregator.consume_price (symbol_to_markets : String → List DiscoveredMarket)
    (st : AggregatorState) (tick : PriceTick) : AggregatorState × List PairedData :=
  (st, (symbol_to_markets tick.symbol).filterMap fun m =>
    (st.latest_odds m.token_id).map fun odds => { tick := tick, odds := odds })

/-! ### Concrete fixtures for witness and counterexample theorems -/

/-- A price tick fixture (volume 0, so the volume sub-score path is the
detector's actual one). -/
def tickEx : PriceTick :=
  { symbol := "btcusdt", price := 100000, volume_24h := 0, price_change_pct := 0 }

/-- An odds snapshot fixture with midpoint 0.5. -/
def oddsEx : OddsSnapshot :=
  { condition_id := "c1", token_id := "t1", symbol := "btcusdt",
    question := "q", outcome := "Yes", midpoint := 0.5, spread := 0 }

/-- A divergence signal fixture. -/
def sigEx : DivergenceSignal :=
  { symbol := "btcusdt", price := 100000, price_momentum_pct := 2.5,
    odds_midpoint := 0.55, implied_fair_odds := 0.625, edge_pct := 7.5,
    signal_score := 0.7, direction := "UP", condition_id := "c1", token_id := "t1" }

/-- A sentiment stage outcome fixture. -/
def sentEx : SentimentResult :=
  { sentiment := Sentiment.BULLISH, reasoning := "Strong momentum", model := "s", latency_ms := 0 }

/-- A low-confidence stage outcome fixture (0.4, below the default 0.6). -/
def confLowEx : ConfidenceGrade :=
  { confidence := 0.4, reasoning := "weak", model := "g", latency_ms := 0 }

/-- A high-confidence stage outcome fixture (0.85, above the default 0.6). -/
def confHighEx : ConfidenceGrade :=
  { confidence := 0.85, reasoning := "clear", model := "g", latency_ms := 0 }

/-- A judge verdict fixture. -/
def verdictEx : TradeVerdict :=
  { action := TradeAction.TRADE, size_usd := 25, reasoning := "good edge", model := "j", latency_ms := 0 }

/-- A registered market fixture for the aggregator. -/
def marketEx : DiscoveredMarket :=
  { condition_id := "c1", token_id := "t1", question := "q", outcome := "Yes", symbol := "btcusdt" }

/-- An aggregator cache holding no odds at all. -/
def emptyOddsState : AggregatorState := { latest_odds := fun _ => none }

/-- The identity function on text, used where a `stripThink` argument is
needed on inputs that contain no think-block. -/
def idText : String → String := fun s => s

/-- The judge response text of the C2 counterexample: a TRADE decision with an
explicitly parsed size of 0. -/
def cexResponse : String := "DECISION: TRADE\nSIZE: 0\nREASONING: go"

/-- What `DECISION_PATTERN.findall` returns on `cexResponse` (and on any other
relevant text: no other text is consulted in the counterexample). -/
def cexFindDecision : String → List String := fun s => if s = cexResponse then ["TRADE"] else []

/-- What `SIZE_PATTERN.findall` returns on `cexResponse`. -/
def cexFindSize : String → List String := fun s => if s = cexResponse then ["0"] else []

/-- What `REASONING_PATTERN.findall` returns on `cexResponse`. -/
def cexFindReasoning : String → List String := fun s => if s = cexResponse then ["go"] else []

/-- A findall fixture returning a confidence match of 1.5 on the text "resp". -/
def wFindConf : String → List String := fun s => if s = "resp" then ["1.5"] else []

/-- A findall fixture returning a size match of 500 on the text "resp". -/
def wFindSize : String → List String := fun s => if s = "resp" then ["500"] else []

/-- A findall fixture returning a size match "1.2.3" (which `float` rejects
with a `ValueError`) on the text "resp". -/
def wFindBadSize : String → List String := fun s => if s = "resp" then ["1.2.3"] else []

/-- A findall fixture returning a TRADE decision match on the text "resp". -/
def wFindDecision : String → List String := fun s => if s = "resp" then ["TRADE"] else []

/-- A findall fixture with no match on any text. -/
def wFindNone : String → List String := fun _ => []

/-- A findall fixture that matches only in the merged channel "merged". -/
def wFindMergedSent : String → List String := fun s => if s = "merged" then ["bearish"] else []

/-! ## Helper lemmas -/

theorem le_roundHalfEven (q : ℚ) : Int.floor q ≤ roundHalfEven q := by
  unfold roundHalfEven
  split_ifs <;> omega

theorem roundHalfEven_le_int (q : ℚ) (n : ℤ) (h : q ≤ (n : ℚ)) : roundHalfEven q ≤ n := by
  have hfn : Int.floor q ≤ n := by
    have h2 := Int.floor_mono h
    simpa using h2
  have hsucc : ¬ (q - (Int.floor q : ℚ) < 1/2) → Int.floor q + 1 ≤ n := by
    intro hnot
    rcases lt_or_eq_of_le hfn with hlt | heq
    · omega
    · exfalso
      have hq : q - (Int.floor q : ℚ) ≤ 0 := by
        have hle : q ≤ (Int.floor q : ℚ) := by rw [heq]; exact h
        linarith
      have hpos : (0 : ℚ) < 1/2 := by norm_num
      exact hnot (lt_of_le_of_lt hq hpos)
  unfold roundHalfEven
  split_ifs with h1 h2 h3
  · exact hfn
  · exact hsucc h1
  · exact hfn
  · exact hsucc h1

theorem int_le_roundHalfEven (q : ℚ) (n : ℤ) (h : (n : ℚ) ≤ q) : n ≤ roundHalfEven q :=
  le_trans (Int.le_floor.mpr h) (le_roundHalfEven q)

theorem round4_le (x : ℚ) (n : ℤ) (h : x ≤ (n : ℚ) / 10000) : round4 x ≤ (n : ℚ) / 10000 := by
  unfold round4
  have h1 : x * 10000 ≤ (n : ℚ) := by linarith
  have h2 : ((roundHalfEven (x * 10000) : ℤ) : ℚ) ≤ (n : ℚ) := by
    exact_mod_cast roundHalfEven_le_int (x * 10000) n h1
  linarith

theorem round4_ge (x : ℚ) (n : ℤ) (h : (n : ℚ) / 10000 ≤ x) : (n : ℚ) / 10000 ≤ round4 x := by
  unfold round4
  have h1 : (n : ℚ) ≤ x * 10000 := by linarith
  have h2 : (n : ℚ) ≤ ((roundHalfEven (x * 10000) : ℤ) : ℚ) := by
    exact_mod_cast int_le_roundHalfEven (x * 10000) n h1
  linarith

theorem roundHalfEven_eq_of_lt_half (y : ℚ) (n : ℤ) (h1 : (n : ℚ) ≤ y)
    (h2 : y - (n : ℚ) < 1/2) : roundHalfEven y = n := by
  have hf : Int.floor y = n := by
    rw [Int.floor_eq_iff]
    refine ⟨h1, ?_⟩
    have hn1 : ((n : ℚ) + 1) = ((n + 1 : ℤ) : ℚ) := by push_cast; ring
    linarith [h2, hn1]
  unfold roundHalfEven
  rw [hf, if_pos h2]

theorem roundHalfEven_eq_of_gt_half (y : ℚ) (n : ℤ) (h1 : (n : ℚ) ≤ y)
    (h2 : 1/2 < y - (n : ℚ)) (h3 : y < (n : ℚ) + 1) : roundHalfEven y = n + 1 := by
  have hf : Int.floor y = n := by
    rw [Int.floor_eq_iff]
    refine ⟨h1, ?_⟩
    linarith [h3]
  unfold roundHalfEven
  rw [hf, if_neg (by linarith), if_pos h2]

theorem round4_eq_lo (x : ℚ) (n : ℤ) (h1 : (n : ℚ) ≤ x * 10000)
    (h2 : x * 10000 - (n : ℚ) < 1/2) : round4 x = (n : ℚ) / 10000 := by
  unfold round4
  rw [roundHalfEven_eq_of_lt_half (x * 10000) n h1 h2]

theorem round4_eq_hi (x : ℚ) (n : ℤ) (h1 : (n : ℚ) ≤ x * 10000)
    (h2 : 1/2 < x * 10000 - (n : ℚ)) (h3 : x * 10000 < (n : ℚ) + 1) :
    round4 x = ((n : ℚ) + 1) / 10000 := by
  unfold round4
  rw [roundHalfEven_eq_of_gt_half (x * 10000) n h1 h2 h3]
  push_cast
  ring

theorem score_edge_nonneg (e : ℚ) : 0 ≤ score_edge e :=
  le_min (by positivity) zero_le_one

theorem score_edge_le_one (e : ℚ) : score_edge e ≤ 1 := min_le_right _ _

theorem score_momentum_nonneg (m : ℚ) : 0 ≤ score_momentum m :=
  le_min (by positivity) zero_le_one

theorem score_momentum_le_one (m : ℚ) : score_momentum m ≤ 1 := min_le_right _ _

theorem score_volume_nonneg (v a : ℚ) : 0 ≤ score_volume v a := by
  simp only [score_volume]
  split_ifs with h1 h2
  · norm_num
  · norm_num
  · refine le_min ?_ zero_le_one
    have : VOLUME_SPIKE_THRESHOLD ≤ v / a := le_of_not_lt h2
    have h35 : (0 : ℚ) < 3.5 := by norm_num
    apply div_nonneg _ (le_of_lt h35)
    linarith

theorem score_volume_le_one (v a : ℚ) : score_volume v a ≤ 1 := by
  simp only [score_volume]
  split_ifs with h1 h2
  · norm_num
  · norm_num
  · exact min_le_right _ _

theorem score_volume_zero_avg (v : ℚ) : score_volume v 0 = 0 := by
  unfold score_volume
  rw [if_pos (le_refl 0)]

theorem effectiveMatches_clean (f : String → List String) (response merged : String)
    (h1 : response ≠ "") (h2 : f response ≠ []) :
    effectiveMatches f response merged = f response := by
  unfold effectiveMatches
  rw [if_neg h1, if_neg h2]

theorem effectiveMatches_fallback (f : String → List String) (response merged : String)
    (h : response = "" ∨ f response = []) :
    effectiveMatches f response merged = f merged := by
  unfold effectiveMatches
  rcases h with h | h
  · rw [if_pos h, if_pos rfl]
  · by_cases hr : response = ""
    · rw [if_pos hr, if_pos rfl]
    · rw [if_neg hr, if_pos h]

theorem sentiment_parse_def (model : String) (fS fR : String → List String)
    (sT : String → String) (response thinking merged : String) (lat : ℚ) :
    (SentimentAgent.parse model fS fR sT response thinking merged lat).sentiment
      = match (effectiveMatches fS response merged).getLast? with
        | some raw => (sentimentOfString (strUpper raw)).getD Sentiment.NEUTRAL
        | none => Sentiment.NEUTRAL := rfl

theorem confidence_parse_def (model : String) (fC fR : String → List String)
    (sT : String → String) (response thinking merged : String) (lat : ℚ) :
    (ConfidenceGrader.parse model fC fR sT response thinking merged lat).confidence
      = match (effectiveMatches fC response merged).getLast? with
        | some raw =>
            match parse_number raw with
            | some x => max 0 (min 1 x)
            | none => 0
        | none => 0 := rfl

theorem judge_parse_action_def (model : String) (maxPos : ℚ)
    (fD fS fR : String → List String) (sT : String → String)
    (response thinking merged : String) (lat : ℚ) :
    (TradeJudge.parse model maxPos fD fS fR sT response thinking merged lat).action
      = (if (TradeJudge.applySize maxPos
              (TradeJudge.parseDecision (effectiveMatches fD response merged))
              (effectiveMatches fS response merged)).1 = TradeAction.TRADE ∧
            (TradeJudge.applySize maxPos
              (TradeJudge.parseDecision (effectiveMatches fD response merged))
              (effectiveMatches fS response merged)).2 ≤ 0
         then TradeAction.SKIP
         else (TradeJudge.applySize maxPos
              (TradeJudge.parseDecision (effectiveMatches fD response merged))
              (effectiveMatches fS response merged)).1) := rfl

theorem judge_parse_size_def (model : String) (maxPos : ℚ)
    (fD fS fR : String → List String) (sT : String → String)
    (response thinking merged : String) (lat : ℚ) :
    (TradeJudge.parse model maxPos fD fS fR sT response thinking merged lat).size_usd
      = (TradeJudge.applySize maxPos
          (TradeJudge.parseDecision (effectiveMatches fD response merged))
          (effectiveMatches fS response merged)).2 := rfl

theorem applySize_skip (maxPos : ℚ) (sm : List String) :
    TradeJudge.applySize maxPos TradeAction.SKIP sm = (TradeAction.SKIP, 0) := by
  unfold TradeJudge.applySize
  cases sm.getLast? <;> rfl

theorem applySize_none (maxPos : ℚ) (a : TradeAction) (sm : List String)
    (h : sm.getLast? = none) : TradeJudge.applySize maxPos a sm = (a, 0) := by
  unfold TradeJudge.applySize
  rw [h]
  cases a <;> rfl

theorem applySize_trade_some (maxPos : ℚ) (sm : List String) (raw : String) (x : ℚ)
    (hL : sm.getLast? = some raw) (hx : parse_number raw = some x) :
    TradeJudge.applySize maxPos TradeAction.TRADE sm
      = (TradeAction.TRADE, max 5 (min x maxPos)) := by
  unfold TradeJudge.applySize
  rw [hL]
  show (match parse_number raw with
    | some y => (TradeAction.TRADE, max 5 (min y maxPos))
    | none => (TradeAction.SKIP, 0)) = (TradeAction.TRADE, max 5 (min x maxPos))
  rw [hx]

theorem applySize_trade_fail (maxPos : ℚ) (sm : List String) (raw : String)
    (hL : sm.getLast? = some raw) (hx : parse_number raw = none) :
    TradeJudge.applySize maxPos TradeAction.TRADE sm = (TradeAction.SKIP, 0) := by
  unfold TradeJudge.applySize
  rw [hL]
  show (match parse_number raw with
    | some y => (TradeAction.TRADE, max 5 (min y maxPos))
    | none => (TradeAction.SKIP, 0)) = (TradeAction.SKIP, 0)
  rw [hx]

theorem clamp_pos (x maxPos : ℚ) : (0 : ℚ) < max 5 (min x maxPos) :=
  lt_of_lt_of_le (by norm_num) (le_max_left _ _)

theorem judge_parse_size_pos_iff (model : String) (maxPos : ℚ)
    (fD fS fR : String → List String) (sT : String → String)
    (response thinking merged : String) (lat : ℚ) :
    ((TradeJudge.parse model maxPos fD fS fR sT response thinking merged lat).size_usd > 0 ↔
      (TradeJudge.parse model maxPos fD fS fR sT response thinking merged lat).action
        = TradeAction.TRADE) := by
  rw [judge_parse_size_def, judge_parse_action_def]
  rcases hdec : TradeJudge.parseDecision (effectiveMatches fD response merged) with _ | _
  · -- decision TRADE
    rcases hL : (effectiveMatches fS response merged).getLast? with _ | raw
    · rw [applySize_none maxPos _ _ hL]
      simp
    · rcases hx : parse_number raw with _ | x
      · rw [applySize_trade_fail maxPos _ raw hL hx]
        simp
      · rw [applySize_trade_some maxPos _ raw x hL hx]
        have hpos := clamp_pos x maxPos
        simp only []
        rw [if_neg (fun hand => absurd hand.2 (not_le.mpr hpos))]
        simp [hpos]
  · -- decision SKIP
    rw [applySize_skip]
    simp

/-! ## Claim theorems -/

/-- C5: the risk gate checks, in order, (1) open-position count below
`max_open_positions`, (2) requested size within `max_position_size`,
(3) aggregate exposure plus the new size within `max_capital`, and returns
`false` with the reason of the first failing check (so a 4th position is
blocked with the count reason regardless of size); `get_available_capital`
returns `max 0 (max_capital - sum of open sizes)`. -/
theorem risk_gate_spec (max_capital max_position_size : ℚ) (max_open_positions : ℕ)
    (open_trades : List ℚ) (size_usd : ℚ) :
    (open_trades.length ≥ max_open_positions →
      PositionTracker.can_trade max_capital max_position_size max_open_positions open_trades size_usd
        = (false, RiskBlockReason.maxOpenPositionsReached max_open_positions)) ∧
    (open_trades.length < max_open_positions → max_position_size < size_usd →
      PositionTracker.can_trade max_capital max_position_size max_open_positions open_trades size_usd
        = (false, RiskBlockReason.sizeExceedsMax size_usd max_position_size)) ∧
    (open_trades.length < max_open_positions → size_usd ≤ max_position_size →
      max_capital < open_trades.sum + size_usd →
      PositionTracker.can_trade max_capital max_position_size max_open_positions open_trades size_usd
        = (false, RiskBlockReason.exposureExceedsMax (open_trades.sum + size_usd) max_capital)) ∧
    (open_trades.length < max_open_positions → size_usd ≤ max_position_size →
      open_trades.sum + size_usd ≤ max_capital →
      PositionTracker.can_trade max_capital max_position_size max_open_positions open_trades size_usd
        = (true, RiskBlockReason.ok)) ∧
    PositionTracker.get_available_capital max_capital open_trades
      = max 0 (max_capital - open_trades.sum) := by
  refine ⟨?_, ?_, ?_, ?_, rfl⟩
  · intro h1
    unfold PositionTracker.can_trade
    rw [if_pos h1]
  · intro h1 h2
    unfold PositionTracker.can_trade
    rw [if_neg (by omega), if_pos h2]
  · intro h1 h2 h3
    unfold PositionTracker.can_trade
    rw [if_neg (by omega), if_neg (not_lt.mpr h2)]
    simp only []
    rw [if_pos h3]
  · intro h1 h2 h3
    unfold PositionTracker.can_trade
    rw [if_neg (by omega), if_neg (not_lt.mpr h2)]
    simp only []
    rw [if_neg (not_lt.mpr h3)]

/-- C5 witness: with 3 open positions and `max_open_positions = 3`, a 4th
trade is blocked with the count reason even at size 1. -/
theorem risk_gate_spec_witness :
    ([10, 20, 30] : List ℚ).length ≥ 3 ∧
    PositionTracker.can_trade 1000 50 3 [10, 20, 30] 1
      = (false, RiskBlockReason.maxOpenPositionsReached 3) :=
  ⟨by decide, (risk_gate_spec 1000 50 3 [10, 20, 30] 1).1 (by decide)⟩

/-- C6: `compute_implied_odds` equals the momentum-adjusted midpoint clamped
to [0.01, 0.99], is therefore always within [0.01, 0.99], and takes the
values 0.56 at (0.50, 2.0) and 0.99 at (0.99, 5.0). -/
theorem implied_fair_odds_spec (midpoint momentum_pct : ℚ) :
    compute_implied_odds midpoint momentum_pct
        = max 0.01 (min 0.99 (midpoint + momentum_pct * 0.03)) ∧
    0.01 ≤ compute_implied_odds midpoint momentum_pct ∧
    compute_implied_odds midpoint momentum_pct ≤ 0.99 ∧
    compute_implied_odds 0.5 2 = 0.56 ∧
    compute_implied_odds 0.99 5 = 0.99 := by
  refine ⟨rfl, le_max_left _ _, ?_, ?_, ?_⟩
  · apply max_le
    · norm_num
    · exact min_le_left _ _
  · simp only [compute_implied_odds]
    rw [min_eq_right (by norm_num), max_eq_right (by norm_num)]
    norm_num
  · simp only [compute_implied_odds]
    rw [min_eq_left (by norm_num), max_eq_right (by norm_num)]

/-- C9: processing one price tick emits a `PairedData` exactly for those
markets registered for the tick's symbol that have a cached odds entry (the
emitted pair carries the tick and the cached odds); when no registered market
of the symbol has cached odds, nothing is emitted; and the aggregator state is
unchanged by price consumption (a tick that pairs with nothing is dropped, not
queued for later pairing). -/
theorem aggregator_pairing_spec (symbol_to_markets : String → List DiscoveredMarket)
    (st : AggregatorState) (tick : PriceTick) :
    (FeedAggregator.consume_price symbol_to_markets st tick).1 = st ∧
    (∀ p ∈ (FeedAggregator.consume_price symbol_to_markets st tick).2,
      p.tick = tick ∧ ∃ m ∈ symbol_to_markets tick.symbol,
        st.latest_odds m.token_id = some p.odds) ∧
    ((∀ m ∈ symbol_to_markets tick.symbol, st.latest_odds m.token_id = none) →
      (FeedAggregator.consume_price symbol_to_markets st tick).2 = []) := by
  refine ⟨rfl, ?_, ?_⟩
  · intro p hp
    unfold FeedAggregator.consume_price at hp
    simp only [List.mem_filterMap] at hp
    obtain ⟨m, hm, hmap⟩ := hp
    rw [Option.map_eq_some'] at hmap
    obtain ⟨odds, hodds, hpod⟩ := hmap
    refine ⟨?_, m, hm, ?_⟩
    · rw [← hpod]
    · rw [hodds, ← hpod]
  · intro h
    unfold FeedAggregator.consume_price
    simp only []
    rw [List.filterMap_eq_nil_iff]
    intro m hm
    rw [h m hm]
    rfl

/-- C9 witness: a price tick for a registered market arriving before any odds
observation produces no emission. -/
theorem aggregator_pairing_spec_witness :
    (∀ m ∈ (fun s => if s = "btcusdt" then [marketEx] else []) tickEx.symbol,
      emptyOddsState.latest_odds m.token_id = none) ∧
    (FeedAggregator.consume_price (fun s => if s = "btcusdt" then [marketEx] else [])
        emptyOddsState tickEx).2 = [] :=
  ⟨by decide,
   (aggregator_pairing_spec (fun s => if s = "btcusdt" then [marketEx] else [])
       emptyOddsState tickEx).2.2 (by decide)⟩

/-- C7 counterexample: at edge 10/3 (with the other inputs zero) the stored
composite score is the 4-decimal rounding 0.1667, which differs from the
weighted sum of the sub-scores, 1/6: the composite score is not (exactly) the
weighted sum. -/
theorem composite_score_rounding_cex :
    composite_score (10/3) 0 0 0 = 1667/10000 ∧
    score_edge (10/3) * WEIGHT_EDGE + score_momentum 0 * WEIGHT_MOMENTUM
        + score_volume 0 0 * WEIGHT_VOLUME = 1/6 ∧
    composite_score (10/3) 0 0 0
      ≠ score_edge (10/3) * WEIGHT_EDGE + score_momentum 0 * WEIGHT_MOMENTUM
          + score_volume 0 0 * WEIGHT_VOLUME := by
  have hsum : score_edge (10/3) * WEIGHT_EDGE + score_momentum 0 * WEIGHT_MOMENTUM
      + score_volume 0 0 * WEIGHT_VOLUME = 1/6 := by
    rw [score_volume_zero_avg]
    unfold score_edge score_momentum WEIGHT_EDGE WEIGHT_MOMENTUM WEIGHT_VOLUME
    rw [abs_of_nonneg (by norm_num : (0:ℚ) ≤ 10/3), abs_of_nonneg (le_refl (0:ℚ))]
    rw [min_eq_left (by norm_num), min_eq_left (by norm_num)]
    norm_num
  have hcs : composite_score (10/3) 0 0 0 = 1667/10000 := by
    unfold composite_score
    rw [hsum, round4_eq_hi (1/6) 1666 (by norm_num) (by norm_num) (by norm_num)]
    norm_num
  refine ⟨hcs, hsum, ?_⟩
  rw [hcs, hsum]
  norm_num

/-- C7 (amended): the composite score is the weighted sum of the three
saturating sub-scores rounded to 4 decimal places; the sub-scores are
`min(|edge|/10, 1)`, `min(|momentum|/5, 1)` and (for positive average volume)
`0` below the 1.5 spike threshold, else `min((ratio - 1.5)/3.5, 1)`; the
default weights 0.5/0.3/0.2 sum to 1; the result is always in [0,1]; and it
equals exactly 1 when all three sub-scores saturate (edge 10, momentum 5,
volume ratio 5). -/
theorem composite_score_spec (edge_pct momentum_pct volume_24h avg_volume : ℚ) :
    composite_score edge_pct momentum_pct volume_24h avg_volume
        = round4 (score_edge edge_pct * WEIGHT_EDGE
            + score_momentum momentum_pct * WEIGHT_MOMENTUM
            + score_volume volume_24h avg_volume * WEIGHT_VOLUME) ∧
    WEIGHT_EDGE + WEIGHT_MOMENTUM + WEIGHT_VOLUME = 1 ∧
    score_edge edge_pct = min (|edge_pct| / 10) 1 ∧
    score_momentum momentum_pct = min (|momentum_pct| / 5) 1 ∧
    (0 < avg_volume → volume_24h / avg_volume < VOLUME_SPIKE_THRESHOLD →
      score_volume volume_24h avg_volume = 0) ∧
    (0 < avg_volume → VOLUME_SPIKE_THRESHOLD ≤ volume_24h / avg_volume →
      score_volume volume_24h avg_volume
        = min ((volume_24h / avg_volume - VOLUME_SPIKE_THRESHOLD) / 3.5) 1) ∧
    0 ≤ composite_score edge_pct momentum_pct volume_24h avg_volume ∧
    composite_score edge_pct momentum_pct volume_24h avg_volume ≤ 1 ∧
    composite_score 10 5 5 1 = 1 := by
  have hlo : 0 ≤ score_edge edge_pct * WEIGHT_EDGE
      + score_momentum momentum_pct * WEIGHT_MOMENTUM
      + score_volume volume_24h avg_volume * WEIGHT_VOLUME := by
    have h1 := score_edge_nonneg edge_pct
    have h2 := score_momentum_nonneg momentum_pct
    have h3 := score_volume_nonneg volume_24h avg_volume
    unfold WEIGHT_EDGE WEIGHT_MOMENTUM WEIGHT_VOLUME
    nlinarith
  have hhi : score_edge edge_pct * WEIGHT_EDGE
      + score_momentum momentum_pct * WEIGHT_MOMENTUM
      + score_volume volume_24h avg_volume * WEIGHT_VOLUME ≤ 1 := by
    have h1 := score_edge_le_one edge_pct
    have h2 := score_momentum_le_one momentum_pct
    have h3 := score_volume_le_one volume_24h avg_volume
    unfold WEIGHT_EDGE WEIGHT_MOMENTUM WEIGHT_VOLUME
    nlinarith
  refine ⟨rfl, by norm_num [WEIGHT_EDGE, WEIGHT_MOMENTUM, WEIGHT_VOLUME], rfl, rfl,
    ?_, ?_, ?_, ?_, ?_⟩
  · intro ha hratio
    simp only [score_volume]
    rw [if_neg (not_le.mpr ha), if_pos hratio]
  · intro ha hratio
    simp only [score_volume]
    rw [if_neg (not_le.mpr ha), if_neg (not_lt.mpr hratio)]
  · have := round4_ge (score_edge edge_pct * WEIGHT_EDGE
      + score_momentum momentum_pct * WEIGHT_MOMENTUM
      + score_volume volume_24h avg_volume * WEIGHT_VOLUME) 0 (by push_cast; linarith)
    unfold composite_score
    push_cast at this
    linarith
  · have := round4_le (score_edge edge_pct * WEIGHT_EDGE
      + score_momentum momentum_pct * WEIGHT_MOMENTUM
      + score_volume volume_24h avg_volume * WEIGHT_VOLUME) 10000 (by push_cast; linarith)
    unfold composite_score
    push_cast at this
    linarith
  · have he : score_edge 10 = 1 := by
      unfold score_edge
      rw [abs_of_nonneg (by norm_num : (0:ℚ) ≤ 10)]
      norm_num
    have hm : score_momentum 5 = 1 := by
      unfold score_momentum
      rw [abs_of_nonneg (by norm_num : (0:ℚ) ≤ 5)]
      norm_num
    have hv : score_volume 5 1 = 1 := by
      simp only [score_volume]
      rw [if_neg (by norm_num), if_neg (by norm_num [VOLUME_SPIKE_THRESHOLD])]
      rw [min_eq_right (by norm_num [VOLUME_SPIKE_THRESHOLD])]
    unfold composite_score
    rw [he, hm, hv]
    have h1 : (1 : ℚ) * WEIGHT_EDGE + 1 * WEIGHT_MOMENTUM + 1 * WEIGHT_VOLUME = 1 := by
      norm_num [WEIGHT_EDGE, WEIGHT_MOMENTUM, WEIGHT_VOLUME]
    rw [h1, round4_eq_lo 1 10000 (by norm_num) (by norm_num)]
    norm_num

/-- C7 witness: the sub-score hypotheses discharged at volume 5 against
average 1 (ratio 5, at or above the 1.5 spike threshold). -/
theorem composite_score_spec_witness :
    ((0 : ℚ) < 1 ∧ VOLUME_SPIKE_THRESHOLD ≤ (5 : ℚ) / 1) ∧
    score_volume 5 1 = min (((5 : ℚ) / 1 - VOLUME_SPIKE_THRESHOLD) / 3.5) 1 :=
  ⟨⟨by norm_num, by norm_num [VOLUME_SPIKE_THRESHOLD]⟩,
   (composite_score_spec 0 0 5 1).2.2.2.2.2.1 (by norm_num)
     (by norm_num [VOLUME_SPIKE_THRESHOLD])⟩

/-- C8: the divergence detector emits no signal when `|momentum|` is below
`MIN_MOMENTUM_PCT` (even if the edge would otherwise qualify), none when the
edge is below `min_edge_pct`, none when the composite score is below
`min_signal_score`, and emits a signal exactly when all three gates pass. -/
theorem detector_gates_spec (min_edge_pct min_signal_score momentum : ℚ)
    (tick : PriceTick) (odds : OddsSnapshot) :
    (|momentum| < MIN_MOMENTUM_PCT →
      DivergenceDetector.evaluate min_edge_pct min_signal_score momentum tick odds = none) ∧
    (|(compute_implied_odds odds.midpoint momentum - odds.midpoint) * 100| < min_edge_pct →
      DivergenceDetector.evaluate min_edge_pct min_signal_score momentum tick odds = none) ∧
    (composite_score ((compute_implied_odds odds.midpoint momentum - odds.midpoint) * 100)
        momentum tick.volume_24h 0 < min_signal_score →
      DivergenceDetector.evaluate min_edge_pct min_signal_score momentum tick odds = none) ∧
    ((DivergenceDetector.evaluate min_edge_pct min_signal_score momentum tick odds).isSome ↔
      MIN_MOMENTUM_PCT ≤ |momentum| ∧
      min_edge_pct ≤ |(compute_implied_odds odds.midpoint momentum - odds.midpoint) * 100| ∧
      min_signal_score ≤ composite_score
        ((compute_implied_odds odds.midpoint momentum - odds.midpoint) * 100)
        momentum tick.volume_24h 0) := by
  simp only [DivergenceDetector.evaluate]
  split_ifs with h1 h2 h3
  · refine ⟨fun _ => rfl, fun _ => rfl, fun _ => rfl, ?_⟩
    simp only [Option.isSome_none, Bool.false_eq_true, false_iff]
    rintro ⟨ha, -, -⟩
    exact absurd ha (not_le.mpr h1)
  · refine ⟨fun _ => rfl, fun _ => rfl, fun _ => rfl, ?_⟩
    simp only [Option.isSome_none, Bool.false_eq_true, false_iff]
    rintro ⟨-, hb, -⟩
    exact absurd hb (not_le.mpr h2)
  · refine ⟨fun _ => rfl, fun _ => rfl, fun _ => rfl, ?_⟩
    simp only [Option.isSome_none, Bool.false_eq_true, false_iff]
    rintro ⟨-, -, hc⟩
    exact absurd hc (not_le.mpr h3)
  all_goals
    refine ⟨fun hm => absurd hm h1, fun he => absurd he h2, fun hs => absurd hs h3, ?_⟩
    simp only [Option.isSome_some, true_iff]
    exact ⟨le_of_not_lt h1, le_of_not_lt h2, le_of_not_lt h3⟩

/-- C8 witness: momentum 0.1 with threshold 0.3 yields no signal. -/
theorem detector_gates_spec_witness :
    |(0.1 : ℚ)| < MIN_MOMENTUM_PCT ∧
    DivergenceDetector.evaluate MIN_EDGE_PCT MIN_SIGNAL_SCORE 0.1 tickEx oddsEx = none :=
  ⟨by rw [abs_of_nonneg (by norm_num : (0:ℚ) ≤ 0.1)]; norm_num [MIN_MOMENTUM_PCT],
   (detector_gates_spec MIN_EDGE_PCT MIN_SIGNAL_SCORE 0.1 tickEx oddsEx).1
     (by rw [abs_of_nonneg (by norm_num : (0:ℚ) ≤ 0.1)]; norm_num [MIN_MOMENTUM_PCT])⟩

/-- C10: the detector calls `composite_score` without an average-volume
argument, which defaults to 0, so the volume sub-score is 0 and the composite
score reduces to the edge and momentum contributions (weights 0.5 and 0.3);
hence the score of every emitted divergence signal is at most 0.8. -/
theorem emitted_signal_score_bound (min_edge_pct min_signal_score momentum : ℚ)
    (tick : PriceTick) (odds : OddsSnapshot) :
    score_volume tick.volume_24h 0 = 0 ∧
    composite_score ((compute_implied_odds odds.midpoint momentum - odds.midpoint) * 100)
        momentum tick.volume_24h 0
      = round4 (score_edge ((compute_implied_odds odds.midpoint momentum - odds.midpoint) * 100)
          * WEIGHT_EDGE + score_momentum momentum * WEIGHT_MOMENTUM) ∧
    ((DivergenceDetector.evaluate min_edge_pct min_signal_score momentum tick odds).map
        DivergenceSignal.signal_score).getD 0 ≤ 0.8 := by
  have hcomp : ∀ e : ℚ, composite_score e momentum tick.volume_24h 0
      = round4 (score_edge e * WEIGHT_EDGE + score_momentum momentum * WEIGHT_MOMENTUM) := by
    intro e
    unfold composite_score
    rw [score_volume_zero_avg]
    congr 1
    ring
  have hbound : ∀ e : ℚ, composite_score e momentum tick.volume_24h 0 ≤ 0.8 := by
    intro e
    rw [hcomp e]
    have h1 := score_edge_le_one e
    have h1n := score_edge_nonneg e
    have h2 := score_momentum_le_one momentum
    have h2n := score_momentum_nonneg momentum
    have hsum : score_edge e * WEIGHT_EDGE + score_momentum momentum * WEIGHT_MOMENTUM
        ≤ (8000 : ℚ) / 10000 := by
      unfold WEIGHT_EDGE WEIGHT_MOMENTUM
      nlinarith
    have := round4_le (score_edge e * WEIGHT_EDGE + score_momentum momentum * WEIGHT_MOMENTUM)
      8000 (by push_cast; linarith)
    push_cast at this
    norm_num at this ⊢
    linarith
  refine ⟨score_volume_zero_avg tick.volume_24h, hcomp _, ?_⟩
  simp only [DivergenceDetector.evaluate]
  split_ifs with h1 h2 h3
  · norm_num
  · norm_num
  · norm_num
  all_goals
    simp only [Option.map_some', Option.getD_some]
    exact hbound _

/-- C1: when the confidence value is strictly below `min_confidence` the
orchestrator performs exactly 2 inference calls, returns a decision whose
verdict is the synthesized short-circuit verdict (action SKIP, size 0,
rationale recording the confidence value and the threshold) and never
consults the judge outcome; at or above the threshold it performs exactly 3
inference calls and returns the judge verdict. -/
theorem orchestrator_calls_spec (min_confidence : ℚ) (signal : DivergenceSignal)
    (sentiment : SentimentResult) (confidence : ConfidenceGrade) (judgeVerdict : TradeVerdict) :
    (confidence.confidence < min_confidence →
      (CouncilOrchestrator.evaluate min_confidence signal sentiment confidence judgeVerdict).2 = 2 ∧
      (CouncilOrchestrator.evaluate min_confidence signal sentiment confidence judgeVerdict).1.verdict
        = shortCircuitVerdict confidence.confidence min_confidence ∧
      (CouncilOrchestrator.evaluate min_confidence signal sentiment confidence judgeVerdict).1.verdict.action
        = TradeAction.SKIP ∧
      (CouncilOrchestrator.evaluate min_confidence signal sentiment confidence judgeVerdict).1.verdict.size_usd
        = 0 ∧
      (CouncilOrchestrator.evaluate min_confidence signal sentiment confidence judgeVerdict).1.verdict.reasoning
        = "Short-circuit: confidence " ++ fmt2 confidence.confidence ++ " < "
            ++ fmtFloat min_confidence ∧
      (∀ other : TradeVerdict,
        CouncilOrchestrator.evaluate min_confidence signal sentiment confidence other
          = CouncilOrchestrator.evaluate min_confidence signal sentiment confidence judgeVerdict)) ∧
    (min_confidence ≤ confidence.confidence →
      (CouncilOrchestrator.evaluate min_confidence signal sentiment confidence judgeVerdict).2 = 3 ∧
      (CouncilOrchestrator.evaluate min_confidence signal sentiment confidence judgeVerdict).1.verdict
        = judgeVerdict) := by
  constructor
  · intro h
    simp [CouncilOrchestrator.evaluate, shortCircuitVerdict, if_pos h]
  · intro h
    simp [CouncilOrchestrator.evaluate, if_neg (not_lt.mpr h)]

/-- C1 witness: confidence 0.4 against threshold 0.6 short-circuits with 2
calls and a SKIP verdict; confidence 0.85 runs 3 calls and returns the judge
verdict. -/
theorem orchestrator_calls_spec_witness :
    (confLowEx.confidence < (0.6 : ℚ) ∧
      (CouncilOrchestrator.evaluate 0.6 sigEx sentEx confLowEx verdictEx).2 = 2 ∧
      (CouncilOrchestrator.evaluate 0.6 sigEx sentEx confLowEx verdictEx).1.verdict.action
        = TradeAction.SKIP ∧
      (CouncilOrchestrator.evaluate 0.6 sigEx sentEx confLowEx verdictEx).1.verdict.size_usd = 0) ∧
    ((0.6 : ℚ) ≤ confHighEx.confidence ∧
      (CouncilOrchestrator.evaluate 0.6 sigEx sentEx confHighEx verdictEx).2 = 3 ∧
      (CouncilOrchestrator.evaluate 0.6 sigEx sentEx confHighEx verdictEx).1.verdict
        = verdictEx) := by
  have h1 := (orchestrator_calls_spec 0.6 sigEx sentEx confLowEx verdictEx).1
    (by norm_num [confLowEx])
  have h2 := (orchestrator_calls_spec 0.6 sigEx sentEx confHighEx verdictEx).2
    (by norm_num [confHighEx])
  exact ⟨⟨by norm_num [confLowEx], h1.1, h1.2.2.1, h1.2.2.2.1⟩,
    ⟨by norm_num [confHighEx], h2.1, h2.2⟩⟩

/-- C2 counterexample: on the response "DECISION: TRADE, SIZE: 0" the parsed
size is 0, which is non-positive, yet the verdict is not forced to SKIP: the
clamp to `[5, max_position_size]` runs first, lifts the size to 5, and the
TRADE stands. -/
theorem trade_judge_size_zero_cex :
    parse_number "0" = some 0 ∧
    (TradeJudge.parse "judge" 50 cexFindDecision cexFindSize cexFindReasoning idText
        cexResponse "" cexResponse 0).action = TradeAction.TRADE ∧
    (TradeJudge.parse "judge" 50 cexFindDecision cexFindSize cexFindReasoning idText
        cexResponse "" cexResponse 0).size_usd = 5 := by
  have h0 : parse_number "0" = some ((0 : ℕ) + ((0 : ℕ) : ℚ) / (10 : ℚ) ^ (0 : ℕ)) := rfl
  have h0q : parse_number "0" = some 0 := by rw [h0]; norm_num
  have hemd : effectiveMatches cexFindDecision cexResponse cexResponse = ["TRADE"] := rfl
  have hems : effectiveMatches cexFindSize cexResponse cexResponse = ["0"] := rfl
  have hdec : TradeJudge.parseDecision ["TRADE"] = TradeAction.TRADE := rfl
  have hL : (["0"] : List String).getLast? = some "0" := rfl
  have hpair : TradeJudge.applySize 50 TradeAction.TRADE ["0"]
      = (TradeAction.TRADE, max 5 (min 0 50)) :=
    applySize_trade_some 50 ["0"] "0" 0 hL h0q
  have hclamp : max (5 : ℚ) (min 0 50) = 5 := by
    rw [min_eq_left (by norm_num), max_eq_left (by norm_num)]
  refine ⟨h0q, ?_, ?_⟩
  · rw [judge_parse_action_def, hemd, hems, hdec, hpair]
    simp only []
    rw [if_neg ?_]
    intro hand
    rw [hclamp] at hand
    exact absurd hand.2 (by norm_num)
  · rw [judge_parse_size_def, hemd, hems, hdec, hpair, hclamp]

/-- C2 (amended): extracted confidence values are clamped to [0,1] (1.5 is
stored as 1.0); a parsed trade size under a TRADE decision is clamped to
`[5, max_position_size]` (500 with max 50 yields 50, and a parsed 0 is lifted
to the minimum 5 with the TRADE standing); the action is forced to SKIP with
size 0 exactly when the decision is TRADE but no size match exists or the
matched size fails to parse — the only ways the stored size can be
non-positive. -/
theorem stage_clamp_spec (model : String) (maxPos : ℚ)
    (fC fD fS fR : String → List String) (sT : String → String)
    (response thinking merged : String) (lat : ℚ) :
    (0 ≤ (ConfidenceGrader.parse model fC fR sT response thinking merged lat).confidence ∧
      (ConfidenceGrader.parse model fC fR sT response thinking merged lat).confidence ≤ 1) ∧
    (∀ raw x, (effectiveMatches fC response merged).getLast? = some raw →
      parse_number raw = some x →
      (ConfidenceGrader.parse model fC fR sT response thinking merged lat).confidence
        = max 0 (min 1 x)) ∧
    (∀ rawD rawS x, (effectiveMatches fD response merged).getLast? = some rawD →
      tradeActionOfString (strUpper rawD) = some TradeAction.TRADE →
      (effectiveMatches fS response merged).getLast? = some rawS →
      parse_number rawS = some x →
      (TradeJudge.parse model maxPos fD fS fR sT response thinking merged lat).action
          = TradeAction.TRADE ∧
      (TradeJudge.parse model maxPos fD fS fR sT response thinking merged lat).size_usd
          = max 5 (min x maxPos)) ∧
    (∀ rawD rawS, (effectiveMatches fD response merged).getLast? = some rawD →
      tradeActionOfString (strUpper rawD) = some TradeAction.TRADE →
      (effectiveMatches fS response merged).getLast? = some rawS →
      parse_number rawS = none →
      (TradeJudge.parse model maxPos fD fS fR sT response thinking merged lat).action
          = TradeAction.SKIP ∧
      (TradeJudge.parse model maxPos fD fS fR sT response thinking merged lat).size_usd = 0) ∧
    (effectiveMatches fS response merged = [] →
      (TradeJudge.parse model maxPos fD fS fR sT response thinking merged lat).action
          = TradeAction.SKIP ∧
      (TradeJudge.parse model maxPos fD fS fR sT response thinking merged lat).size_usd = 0) ∧
    (ConfidenceGrader.parse "g" wFindConf wFindNone idText "resp" "" "resp" 0).confidence = 1 ∧
    (TradeJudge.parse "j" 50 wFindDecision wFindSize wFindNone idText "resp" "" "resp" 0).action
        = TradeAction.TRADE ∧
    (TradeJudge.parse "j" 50 wFindDecision wFindSize wFindNone idText "resp" "" "resp" 0).size_usd
        = 50 := by
  have hbounds : ∀ (fC' : String → List String),
      0 ≤ (ConfidenceGrader.parse model fC' fR sT response thinking merged lat).confidence ∧
      (ConfidenceGrader.parse model fC' fR sT response thinking merged lat).confidence ≤ 1 := by
    intro fC'
    rw [confidence_parse_def]
    cases hL : (effectiveMatches fC' response merged).getLast? with
    | none => simp [hL]
    | some raw =>
      cases hx : parse_number raw with
      | none => simp [hL, hx]
      | some x =>
        simp only [hL, hx]
        exact ⟨le_max_left _ _, max_le (by norm_num) (min_le_left _ _)⟩
  refine ⟨hbounds fC, ?_, ?_, ?_, ?_, ?_, ?_, ?_⟩
  · intro raw x hraw hx
    rw [confidence_parse_def, hraw]
    simp only [hx]
  · intro rawD rawS x hD hA hS hx
    have hdec : TradeJudge.parseDecision (effectiveMatches fD response merged)
        = TradeAction.TRADE := by
      unfold TradeJudge.parseDecision
      rw [hD]
      simp [hA]
    have hpair := applySize_trade_some maxPos (effectiveMatches fS response merged) rawS x hS hx
    constructor
    · rw [judge_parse_action_def, hdec, hpair]
      simp only []
      rw [if_neg ?_]
      intro hand
      exact absurd hand.2 (not_le.mpr (clamp_pos x maxPos))
    · rw [judge_parse_size_def, hdec, hpair]
  · intro rawD rawS hD hA hS hx
    have hdec : TradeJudge.parseDecision (effectiveMatches fD response merged)
        = TradeAction.TRADE := by
      unfold TradeJudge.parseDecision
      rw [hD]
      simp [hA]
    have hpair := applySize_trade_fail maxPos (effectiveMatches fS response merged) rawS hS hx
    constructor
    · rw [judge_parse_action_def, hdec, hpair]
      simp
    · rw [judge_parse_size_def, hdec, hpair]
  · intro hS
    have hL : (effectiveMatches fS response merged).getLast? = none := by rw [hS]; rfl
    have hpair := applySize_none maxPos
      (TradeJudge.parseDecision (effectiveMatches fD response merged))
      (effectiveMatches fS response merged) hL
    constructor
    · rw [judge_parse_action_def, hpair]
      rcases TradeJudge.parseDecision (effectiveMatches fD response merged) with _ | _
      · simp
      · simp
    · rw [judge_parse_size_def, hpair]
  · -- extracted 1.5 is stored as 1.0
    have hem : effectiveMatches wFindConf "resp" "resp" = ["1.5"] := rfl
    have h15 : parse_number "1.5"
        = some (((1 : ℕ) : ℚ) + ((5 : ℕ) : ℚ) / (10 : ℚ) ^ (1 : ℕ)) := rfl
    rw [confidence_parse_def, hem]
    simp only [List.getLast?_singleton, h15]
    norm_num
  · -- parsed 500 with max 50: TRADE stands
    have hemd : effectiveMatches wFindDecision "resp" "resp" = ["TRADE"] := rfl
    have hems : effectiveMatches wFindSize "resp" "resp" = ["500"] := rfl
    have hdec : TradeJudge.parseDecision ["TRADE"] = TradeAction.TRADE := rfl
    have h500 : parse_number "500"
        = some (((500 : ℕ) : ℚ) + ((0 : ℕ) : ℚ) / (10 : ℚ) ^ (0 : ℕ)) := rfl
    have h500q : parse_number "500" = some 500 := by rw [h500]; norm_num
    have hpair := applySize_trade_some 50 ["500"] "500" 500 rfl h500q
    rw [judge_parse_action_def, hemd, hems, hdec, hpair]
    simp only []
    rw [if_neg ?_]
    intro hand
    exact absurd hand.2 (not_le.mpr (clamp_pos 500 50))
  · -- parsed 500 with max 50 yields stored size 50
    have hemd : effectiveMatches wFindDecision "resp" "resp" = ["TRADE"] := rfl
    have hems : effectiveMatches wFindSize "resp" "resp" = ["500"] := rfl
    have hdec : TradeJudge.parseDecision ["TRADE"] = TradeAction.TRADE := rfl
    have h500 : parse_number "500"
        = some (((500 : ℕ) : ℚ) + ((0 : ℕ) : ℚ) / (10 : ℚ) ^ (0 : ℕ)) := rfl
    have h500q : parse_number "500" = some 500 := by rw [h500]; norm_num
    have hpair := applySize_trade_some 50 ["500"] "500" 500 rfl h500q
    rw [judge_parse_size_def, hemd, hems, hdec, hpair]
    rw [min_eq_right (by norm_num), max_eq_right (by norm_num)]

/-- C2 witness: the clamp equation applied to the extracted confidence match
"1.5" of the fixture findall, and the parse-failure path on a TRADE decision
whose size match "1.2.3" fails to parse, yielding SKIP with size 0. -/
theorem stage_clamp_spec_witness :
    ((effectiveMatches wFindConf "resp" "resp").getLast? = some "1.5" ∧
      parse_number "1.5" = some (((1 : ℕ) : ℚ) + ((5 : ℕ) : ℚ) / (10 : ℚ) ^ (1 : ℕ))) ∧
    (ConfidenceGrader.parse "g" wFindConf wFindNone idText "resp" "" "resp" 0).confidence
      = max 0 (min 1 (((1 : ℕ) : ℚ) + ((5 : ℕ) : ℚ) / (10 : ℚ) ^ (1 : ℕ))) ∧
    ((effectiveMatches wFindBadSize "resp" "resp").getLast? = some "1.2.3" ∧
      parse_number "1.2.3" = none) ∧
    ((TradeJudge.parse "j" 50 wFindDecision wFindBadSize wFindNone idText
        "resp" "" "resp" 0).action = TradeAction.SKIP ∧
      (TradeJudge.parse "j" 50 wFindDecision wFindBadSize wFindNone idText
        "resp" "" "resp" 0).size_usd = 0) :=
  ⟨⟨rfl, rfl⟩,
   (stage_clamp_spec "g" 50 wFindConf wFindNone wFindNone wFindNone idText "resp" "" "resp" 0).2.1
     "1.5" _ rfl rfl,
   ⟨rfl, rfl⟩,
   (stage_clamp_spec "j" 50 wFindNone wFindDecision wFindBadSize wFindNone idText
       "resp" "" "resp" 0).2.2.2.1 "TRADE" "1.2.3" rfl rfl rfl rfl⟩

/-- C3: every `TradeVerdict` the pipeline produces — the orchestrator's
short-circuit verdict, the judge's parse of a successful backend response, and
the judge's error fallback — has positive `size_usd` exactly when its action
is TRADE. -/
theorem verdict_size_iff_trade (conf minConf maxPos lat : ℚ) (model : String)
    (fD fS fR : String → List String) (sT : String → String)
    (backend : Except String ChatResult) :
    ((shortCircuitVerdict conf minConf).size_usd > 0 ↔
      (shortCircuitVerdict conf minConf).action = TradeAction.TRADE) ∧
    ((TradeJudge.judge model maxPos fD fS fR sT backend lat).size_usd > 0 ↔
      (TradeJudge.judge model maxPos fD fS fR sT backend lat).action = TradeAction.TRADE) := by
  constructor
  · simp [shortCircuitVerdict]
  · cases backend with
    | error e => simp [TradeJudge.judge]
    | ok result =>
        simp only [TradeJudge.judge]
        exact judge_parse_size_pos_iff model maxPos fD fS fR sT
          (strTrim result.response) (strTrim result.thinking)
          (merge_fields result.response result.thinking) lat

/-- C4: extraction prefers the clean response channel and uses the last match
found there; when the clean channel has no match the last match in the merged
text is used (the merged text wraps a non-empty thinking channel in think-tags
before the clean text); with no match anywhere each stage returns its
fail-safe default (NEUTRAL, 0.0, SKIP); and a backend exception at any stage
boundary is converted to the same fail-safe default with an error-annotated
rationale instead of being propagated. -/
theorem extraction_contract_spec (model : String) (maxPos lat : ℚ)
    (f fSent fC fD fS fR : String → List String) (sT : String → String)
    (response thinking merged : String) (e : String) :
    (response ≠ "" → f response ≠ [] →
      effectiveMatches f response merged = f response) ∧
    ((response = "" ∨ f response = []) →
      effectiveMatches f response merged = f merged) ∧
    (strTrim thinking ≠ "" → strTrim response ≠ "" →
      merge_fields response thinking
        = "<think>" ++ strTrim thinking ++ "</think>\n" ++ strTrim response) ∧
    (∀ raw, (effectiveMatches fSent response merged).getLast? = some raw →
      (SentimentAgent.parse model fSent fR sT response thinking merged lat).sentiment
        = (sentimentOfString (strUpper raw)).getD Sentiment.NEUTRAL) ∧
    (effectiveMatches fSent response merged = [] →
      (SentimentAgent.parse model fSent fR sT response thinking merged lat).sentiment
        = Sentiment.NEUTRAL) ∧
    (effectiveMatches fC response merged = [] →
      (ConfidenceGrader.parse model fC fR sT response thinking merged lat).confidence = 0) ∧
    (effectiveMatches fD response merged = [] →
      (TradeJudge.parse model maxPos fD fS fR sT response thinking merged lat).action
        = TradeAction.SKIP) ∧
    (SentimentAgent.analyze model fSent fR sT (Except.error e) lat
      = { sentiment := Sentiment.NEUTRAL, reasoning := "Error: " ++ e,
          model := model, latency_ms := lat }) ∧
    (ConfidenceGrader.grade model fC fR sT (Except.error e) lat
      = { confidence := 0, reasoning := "Error: " ++ e, model := model, latency_ms := lat }) ∧
    (TradeJudge.judge model maxPos fD fS fR sT (Except.error e) lat
      = { action := TradeAction.SKIP, size_usd := 0, reasoning := "Error: " ++ e,
          model := model, latency_ms := lat }) := by
  refine ⟨effectiveMatches_clean f response merged,
    effectiveMatches_fallback f response merged, ?_, ?_, ?_, ?_, ?_, rfl, rfl, rfl⟩
  · intro ht hr
    unfold merge_fields
    rw [if_neg ht, if_neg hr]
  · intro raw hraw
    rw [sentiment_parse_def, hraw]
  · intro h
    have hL : (effectiveMatches fSent response merged).getLast? = none := by rw [h]; rfl
    rw [sentiment_parse_def, hL]
  · intro h
    have hL : (effectiveMatches fC response merged).getLast? = none := by rw [h]; rfl
    rw [confidence_parse_def, hL]
  · intro h
    have hL : (effectiveMatches fD response merged).getLast? = none := by rw [h]; rfl
    have hdec : TradeJudge.parseDecision (effectiveMatches fD response merged)
        = TradeAction.SKIP := by
      unfold TradeJudge.parseDecision
      rw [hL]
    have hpair := applySize_skip maxPos (effectiveMatches fS response merged)
    rw [judge_parse_action_def, hdec, hpair]
    simp

/-- C4 witness: a clean channel with no sentiment match falls back to the
merged text, whose last match "bearish" determines the parsed sentiment. -/
theorem extraction_contract_spec_witness :
    (("r" : String) = "" ∨ wFindMergedSent "r" = []) ∧
    effectiveMatches wFindMergedSent "r" "merged" = wFindMergedSent "merged" ∧
    ((effectiveMatches wFindMergedSent "r" "merged").getLast? = some "bearish" ∧
      (SentimentAgent.parse "s" wFindMergedSent wFindNone idText "r" "t" "merged" 0).sentiment
        = (sentimentOfString (strUpper "bearish")).getD Sentiment.NEUTRAL) := by
  have h := extraction_contract_spec "s" 50 0 wFindMergedSent wFindMergedSent wFindNone
    wFindNone wFindNone wFindNone idText "r" "t" "merged" "boom"
  exact ⟨Or.inr rfl, h.2.1 (Or.inr rfl), rfl, h.2.2.2.1 "bearish" rfl⟩

end PolymarketAgent
